import Mathlib

/-!
Shallow embedding of the academic-calendar and reminder-engine core of the
`productivityHelper` repository (`src/utils/semester_logic.py`,
`src/scheduler/notifications.py`, `src/database/operations.py`), together
with theorems settling the claims about it.

Modelling conventions:
* A calendar date is its proleptic-Gregorian day number (days since
  1970-01-01), an `Int`; `days_from_civil` converts a civil date to it.
* An instant (`datetime`) is a pair of its day number and its minutes
  past midnight; `hours_until` returns the exact rational number of hours
  between two instants, as the source's float does for minute-granular
  datetimes.
* A stored date / datetime / time string is modelled by the outcome of the
  source's fallible parse (`parse_date`, `datetime.fromisoformat`,
  `datetime.strptime`): absent (falsy), malformed (the parse raises), or
  valid with the parsed value.  The `raw` component of a valid date keeps
  the stored string because `get_next_offday` sorts by the raw string.
* Python dict access `d.get(k)` is an `Option` field; `d.get(k, default)`
  is `Option.getD`.
-/

namespace Productivity

/-- Days since 1970-01-01 of the civil (proleptic Gregorian) date y-m-d,
    the standard era/year-of-era conversion (truncating integer division,
    exactly as in its C source). -/
def days_from_civil (y : Int) (m d : Int) : Int :=
  let y2 : Int := if m ≤ 2 then y - 1 else y
  let era : Int := (if 0 ≤ y2 then y2 else y2 - 399) / 400
  let yoe : Int := y2 - era * 400
  let mp : Int := (m + 9) % 12
  let doy : Int := (153 * mp + 2) / 5 + d - 1
  let doe : Int := yoe * 365 + yoe / 4 - yoe / 100 + doy
  era * 146097 + doe - 719468

/-- Python `date.weekday()` of the day number: Monday = 0 … Sunday = 6
    (1970-01-01 was a Thursday, weekday 3). -/
def weekday (d : Int) : Int :=
  (d + 3) % 7

/-- Outcome of the source's fallible date parse (`parse_date` /
    `datetime.strptime(s, "%Y-%m-%d")`) on a stored date string:
    the field is absent or falsy, the string does not parse (the source
    logs and skips), or it parses to day number `d` (raw string kept,
    since `get_next_offday` sorts events by the raw string). -/
inductive DateField where
  | absent : DateField
  | malformed (s : String) : DateField
  | valid (raw : String) (d : Int) : DateField
deriving DecidableEq

/-- A `datetime` as the pair of its date (day number) and its minutes past
    midnight — the granularity at which the source manipulates instants
    (`now.date()`, `now.hour`, "HH:MM" times, ISO datetimes). -/
structure Instant where
  day : Int
  minute : Int
deriving DecidableEq

/-- Total minutes since the epoch of an instant; `datetime` comparison and
    subtraction in the source are comparison and subtraction of this. -/
def instant_minutes (i : Instant) : Int :=
  i.day * 1440 + i.minute

/-- Source `hours_until` of `semester_logic.py`:
    `(target - now).total_seconds() / 3600`, an exact rational number of
    hours (negative when the target is past). -/
def hours_until (target now : Instant) : Rat :=
  ((instant_minutes target - instant_minutes now : Int) : Rat) / 60

/-- Python `now.hour` — the hour of the day of an instant. -/
def hour_of (now : Instant) : Int :=
  now.minute / 60

/-- Outcome of `datetime.fromisoformat` on an assignment's stored due
    datetime string: absent/falsy, unparseable, or the parsed instant. -/
inductive DateTimeField where
  | absent : DateTimeField
  | malformed (s : String) : DateTimeField
  | valid (t : Instant) : DateTimeField
deriving DecidableEq

/-- Outcome of `datetime.strptime(s, "%H:%M")` on a stored time string:
    unparseable, or valid with the minutes past midnight. -/
inductive TimeField where
  | malformed (s : String) : TimeField
  | valid (minutes : Int) : TimeField
deriving DecidableEq

/-- Source `parse_date` of `semester_logic.py`: `None` on an absent/falsy or
    unparseable string, otherwise the parsed date. -/
def parse_date : DateField → Option Int
  | DateField.absent => none
  | DateField.malformed _ => none
  | DateField.valid _ d => some d

/-- Python's falsy-chaining `a or b` on an optional string: `b` when `a`
    is `None` or the empty string. -/
def orFalsy (a : Option String) (b : String) : String :=
  match a with
  | none => b
  | some s => if s = "" then b else s

/-- Whether the second character list starts with the first. -/
def starts_with : List Char → List Char → Bool
  | [], _ => true
  | _ :: _, [] => false
  | c :: cs, d :: ds => c == d && starts_with cs ds

/-- Whether the needle occurs as a contiguous run of the haystack. -/
def contains_chars (needle : List Char) : List Char → Bool
  | [] => needle.isEmpty
  | c :: rest => starts_with needle (c :: rest) || contains_chars needle rest

/-- Python's `needle in haystack` substring test on strings. -/
def strContains (haystack needle : String) : Bool :=
  contains_chars needle.data haystack.data

/-- Python's `str.lower()` (character-wise; the break-name tokens the
    source tests are ASCII). -/
def lower_string (s : String) : String :=
  String.mk (s.data.map Char.toLower)

/-- An academic-calendar event row as the Python dict used by
    `semester_logic.py`: optional `event_type`, `name`, `name_en`,
    stored `start_date`/`end_date` strings, and an `affects_classes`
    field that may be absent (`event.get("affects_classes", True)`). -/
structure AcademicEvent where
  event_type : Option String
  name : Option String
  name_en : Option String
  start_date : DateField
  end_date : DateField
  affects_classes : Option Bool
deriving DecidableEq

def BREAK_MID_SEMESTER : String := "mid_semester"

def BREAK_INTER_SEMESTER : String := "inter_semester"

/-- Source `classify_break_event`: lowercase `name` and `name_en` (absent → ""),
    then substring tests — "pertengahan" in name or "mid" in name_en gives
    mid-semester; "antara" in name or "inter"/"semester break" in name_en
    gives inter-semester; default inter-semester. -/
def classify_break_event (e : AcademicEvent) : String :=
  let name := lower_string (e.name.getD "")
  let name_en := lower_string (e.name_en.getD "")
  if strContains name "pertengahan" || strContains name_en "mid" then
    BREAK_MID_SEMESTER
  else if strContains name "antara" || strContains name_en "inter"
      || strContains name_en "semester break" then
    BREAK_INTER_SEMESTER
  else
    BREAK_INTER_SEMESTER

/-- The loop body of `get_all_breaks`: keep the first event classified of
    each kind among events of `event_type == "break"`. -/
def get_all_breaks_go : Option AcademicEvent → Option AcademicEvent →
    List AcademicEvent → Option AcademicEvent × Option AcademicEvent
  | mid, inter, [] => (mid, inter)
  | mid, inter, e :: rest =>
    if e.event_type = some "break" then
      if classify_break_event e = BREAK_MID_SEMESTER ∧ mid = none then
        get_all_breaks_go (some e) inter rest
      else if classify_break_event e = BREAK_INTER_SEMESTER ∧ inter = none then
        get_all_breaks_go mid (some e) rest
      else
        get_all_breaks_go mid inter rest
    else
      get_all_breaks_go mid inter rest

/-- Source `get_all_breaks`: the first mid-semester and first inter-semester
    break events, if any. -/
def get_all_breaks (events : List AcademicEvent) :
    Option AcademicEvent × Option AcademicEvent :=
  get_all_breaks_go none none events

/-- Result of `get_current_week`: a week number (the Python `int` branch)
    or a descriptive period string. -/
inductive WeekResult where
  | week (n : Int) : WeekResult
  | period (s : String) : WeekResult
deriving DecidableEq

/-- If today is inside the given optional break's `[start, end]` range
    (end defaulting to start), the break's display name
    (`name_en or name or fallback`), else `none`; the in-break checks of
    `get_current_week`. -/
def break_covering (today : Int) (b : Option AcademicEvent) (fallback : String) :
    Option String :=
  match b with
  | none => none
  | some ev =>
    match parse_date ev.start_date with
    | none => none
    | some s =>
      let e := (parse_date ev.end_date).getD s
      if s ≤ today ∧ today ≤ e then
        some (orFalsy ev.name_en (orFalsy ev.name fallback))
      else none

/-- The tail of `get_current_week`: return a break name or "Semester
    ended" past week 14, else the week clamped below to 1. -/
def week_from_lecture (lecture_week : Int) (inter_break : Option AcademicEvent) :
    WeekResult :=
  if 14 < lecture_week then
    match inter_break with
    | some ib =>
      WeekResult.period (orFalsy ib.name_en (orFalsy ib.name "Inter-semester Break"))
    | none => WeekResult.period "Semester ended"
  else
    WeekResult.week (max lecture_week 1)

/-- Source `get_current_week`: week number of the semester, or a descriptive
    string for before-semester / breaks / after week 14. -/
def get_current_week (today semester_start : Int) (events : List AcademicEvent) :
    WeekResult :=
  if today < semester_start then
    WeekResult.period "Before semester starts"
  else
    let days_elapsed := today - semester_start
    let calendar_week := days_elapsed / 7 + 1
    let mid_break := (get_all_breaks events).1
    let inter_break := (get_all_breaks events).2
    match break_covering today inter_break "Inter-semester Break" with
    | some s => WeekResult.period s
    | none =>
      match break_covering today mid_break "Mid Semester Break" with
      | some s => WeekResult.period s
      | none =>
        let lecture_week : Int :=
          match mid_break with
          | none => calendar_week
          | some mb =>
            match parse_date mb.end_date with
            | none => calendar_week
            | some mid_end =>
              if mid_end < today then calendar_week - 1 else calendar_week
        week_from_lecture lecture_week inter_break

/-- The per-event test of `is_class_day` / `get_event_on_date`: the event
    has a parseable start date, affects classes (absent field defaults to
    `True`), and covers the date (end defaulting to start). -/
def event_covers (check_date : Int) (e : AcademicEvent) : Bool :=
  match parse_date e.start_date with
  | none => false
  | some s =>
    e.affects_classes.getD true &&
      decide (s ≤ check_date) && decide (check_date ≤ (parse_date e.end_date).getD s)

/-- Source `is_class_day`: false on Saturday/Sunday, false when some
    class-affecting event covers the date, else true. -/
def is_class_day (check_date : Int) (events : List AcademicEvent) : Bool :=
  if 5 ≤ weekday check_date then
    false
  else
    !(events.any (event_covers check_date))

/-- Source `get_event_on_date`: the first event (in input order) that affects
    classes and covers the date. -/
def get_event_on_date (check_date : Int) (events : List AcademicEvent) :
    Option AcademicEvent :=
  events.find? (event_covers check_date)

/-- The Python sort key `e.get("start_date", "")` — for the events reaching
    the sort in `get_next_offday` the start date is always valid, so the
    key is the raw stored string. -/
def start_date_key (e : AcademicEvent) : String :=
  match e.start_date with
  | DateField.valid raw _ => raw
  | DateField.malformed s => s
  | DateField.absent => ""

/-- Stable insertion (after all elements of smaller-or-equal key) used to
    model Python's stable `list.sort(key=...)`. -/
def insert_event (e : AcademicEvent) : List AcademicEvent → List AcademicEvent
  | [] => [e]
  | f :: rest =>
    if start_date_key f ≤ start_date_key e then f :: insert_event e rest
    else e :: f :: rest

/-- Stable sort of events by start-date key (Python `list.sort`). -/
def sort_by_start (l : List AcademicEvent) : List AcademicEvent :=
  l.foldl (fun acc e => insert_event e acc) []

/-- Source `get_next_offday`: among events with a parseable start date that
    affect classes, lie strictly after today and within `days_ahead`
    days, the one with the smallest start date (ties by input order),
    returned as the source's `{"date": …, "event": …}` pair. -/
def get_next_offday (today : Int) (events : List AcademicEvent) (days_ahead : Int) :
    Option (Option Int × AcademicEvent) :=
  let future_events := events.filter (fun e =>
    match parse_date e.start_date with
    | none => false
    | some s =>
      e.affects_classes.getD true && decide (today < s) && decide (s - today ≤ days_ahead))
  match sort_by_start future_events with
  | [] => none
  | nearest :: _ => some (parse_date nearest.start_date, nearest)

/-! ## Notification scheduler (`src/scheduler/notifications.py`,
`DatabaseOperations.is_muted` of `src/database/operations.py`) -/

/-- A row of `user_config` as seen by `is_muted`: its optional
    `muted_until` stored datetime string. -/
structure UserConfig where
  muted_until : DateTimeField
deriving DecidableEq

/-- Source `DatabaseOperations.is_muted`: false when the user has no config row,
    no (or a falsy) `muted_until`, or an unparseable one (`ValueError`
    caught); otherwise true exactly while `now < muted_until`. -/
def is_muted (now : Instant) : Option UserConfig → Bool
  | none => false
  | some cfg =>
    match cfg.muted_until with
    | DateTimeField.absent => false
    | DateTimeField.malformed _ => false
    | DateTimeField.valid t => decide (instant_minutes now < instant_minutes t)

/-- One registered chat as the scheduler's send path sees it: its id, its
    `user_config` row (for `is_muted`), and whether
    `bot.send_message` raises `TelegramError` for it during this scan. -/
structure ChatEnv where
  chat_id : Int
  user_config : Option UserConfig
  send_raises : Bool
deriving DecidableEq

/-- Source `NotificationScheduler._send_notification`: returns false without
    sending when the chat is muted; otherwise attempts the send and
    returns false when it raises (error caught and logged), true on
    success.  The result is true exactly when the message was delivered;
    every caller ignores it. -/
def send_notification (now : Instant) (c : ChatEnv) : Bool :=
  if is_muted now c.user_config then false
  else if c.send_raises then false
  else true

/-- The chat ids a broadcast loop (`for chat_id in chat_ids: await
    self._send_notification …`) actually delivers to. -/
def broadcast_delivered (now : Instant) (chats : List ChatEnv) : List Int :=
  (chats.filter (send_notification now)).map ChatEnv.chat_id

/-- Source `ASSIGNMENT_REMINDER_LEVELS.get(level, -1)`: the hours-before-due
    threshold of each escalation level. -/
def ASSIGNMENT_REMINDER_LEVELS (level : Nat) : Int :=
  match level with
  | 1 => 72
  | 2 => 48
  | 3 => 24
  | 4 => 8
  | 5 => 3
  | 6 => 1
  | 7 => 0
  | _ => -1

/-- The `for level in range(current_level + 1, 8)` loop of
    `_get_next_reminder_level`, with `fuel` iterations left starting at
    `level`: return the first level whose threshold is non-negative and
    at least `hours_left`. -/
def reminder_level_loop (hours_left : Rat) : Nat → Nat → Option Nat
  | 0, _ => none
  | fuel + 1, level =>
    let threshold := ASSIGNMENT_REMINDER_LEVELS level
    if 0 ≤ threshold ∧ hours_left ≤ (threshold : Rat) then some level
    else reminder_level_loop hours_left fuel (level + 1)

/-- Source `NotificationScheduler._get_next_reminder_level`: the first level in
    `current_level + 1 … 7` whose threshold `hours_left` has reached. -/
def get_next_reminder_level (hours_left : Rat) (current_level : Nat) : Option Nat :=
  reminder_level_loop hours_left (8 - (current_level + 1)) (current_level + 1)

/-- A pending assignment row as `check_assignment_reminders` reads it:
    `due_date` stored string and `last_reminder_level`
    (`assignment.get("last_reminder_level", 0)`).  Completed assignments
    are excluded by `get_pending_assignments` before the scan. -/
structure Assignment where
  id : Nat
  due_date : DateTimeField
  last_reminder_level : Nat
deriving DecidableEq

/-- One loop iteration of `check_assignment_reminders` on one assignment:
    skip when `due_date` is absent, skip (exception caught) when it is
    unparseable; otherwise if a next level applies, broadcast the reminder
    and persist the new level — unconditionally, whatever
    `_send_notification` returned per chat.  Result: the assignment row
    after the iteration, and the fired reminders as
    `(assignment id, level, chat ids actually delivered to)`. -/
def scan_assignment (now : Instant) (chats : List ChatEnv) (a : Assignment) :
    Assignment × List (Nat × Nat × List Int) :=
  match a.due_date with
  | DateTimeField.absent => (a, [])
  | DateTimeField.malformed _ => (a, [])
  | DateTimeField.valid due =>
    let hours_left := hours_until due now
    match get_next_reminder_level hours_left a.last_reminder_level with
    | none => (a, [])
    | some next_level =>
      if a.last_reminder_level < next_level then
        ({ a with last_reminder_level := next_level },
          [(a.id, next_level, broadcast_delivered now chats)])
      else (a, [])

/-- Source `check_assignment_reminders`: the loop over all pending assignments;
    returns the rows after the scan and all fired reminders. -/
def check_assignment_reminders (now : Instant) (chats : List ChatEnv) :
    List Assignment → List Assignment × List (Nat × Nat × List Int)
  | [] => ([], [])
  | a :: rest =>
    let r := scan_assignment now chats a
    let rs := check_assignment_reminders now chats rest
    (r.1 :: rs.1, r.2 ++ rs.2)

/-- A sequence of assignment-reminder scans at successive instants on one
    assignment; returns the final row and the levels fired, in order. -/
def run_scans (chats : List ChatEnv) (a : Assignment) :
    List Instant → Assignment × List Nat
  | [] => (a, [])
  | t :: ts =>
    let r := scan_assignment t chats a
    let rest := run_scans chats r.1 ts
    (rest.1, r.2.map (fun n => n.2.1) ++ rest.2)

/-- A pending task row as `check_task_reminders` reads it: stored
    `scheduled_date` string, optional stored `scheduled_time` string
    (`none` for absent or falsy), and the two reminder flags. -/
structure Task where
  id : Nat
  scheduled_date : DateField
  scheduled_time : Option TimeField
  reminded_1day : Bool
  reminded_2hours : Bool
deriving DecidableEq

/-- The one-day-checkpoint block of a `check_task_reminders` iteration:
    when `reminded_1day` is unset, the task is scheduled for tomorrow and
    it is 8PM or later, broadcast the one-day reminder and set the flag. -/
def scan_task_1day (now : Instant) (chats : List ChatEnv) (t : Task) (task_date : Int) :
    Task × List (Nat × String × List Int) :=
  let fire_1day := !t.reminded_1day && decide (task_date = now.day + 1)
    && decide (20 ≤ hour_of now)
  (if fire_1day then { t with reminded_1day := true } else t,
    if fire_1day then [(t.id, "1day", broadcast_delivered now chats)] else [])

/-- One loop iteration of `check_task_reminders` on one task: skip on an
    absent or unparseable `scheduled_date` (the `strptime` exception is
    caught before any checkpoint runs).  Otherwise the one-day checkpoint
    fires (and its flag is set) when the task is tomorrow, it is 8PM or
    later and `reminded_1day` is unset; then, only when a stored time is
    present and `reminded_2hours` is unset, the time string is parsed —
    if it is unparseable the exception aborts the rest of the iteration,
    keeping the one-day effects already performed — and the two-hour
    checkpoint fires when `0 ≤ hours_left ≤ 2`.  Fired reminders are
    `(task id, reminder type, chat ids actually delivered to)`. -/
def scan_task (now : Instant) (chats : List ChatEnv) (t : Task) :
    Task × List (Nat × String × List Int) :=
  match t.scheduled_date with
  | DateField.absent => (t, [])
  | DateField.malformed _ => (t, [])
  | DateField.valid _ task_date =>
    let r1 := scan_task_1day now chats t task_date
    let t1 := r1.1
    let n1 := r1.2
    match t.scheduled_time with
    | none => (t1, n1)
    | some tf =>
      if t.reminded_2hours then (t1, n1)
      else
        match tf with
        | TimeField.malformed _ => (t1, n1)
        | TimeField.valid m =>
          let task_datetime : Instant := ⟨task_date, m⟩
          let hours_left := hours_until task_datetime now
          if 0 ≤ hours_left ∧ hours_left ≤ 2 then
            ({ t1 with reminded_2hours := true },
              n1 ++ [(t.id, "2hours", broadcast_delivered now chats)])
          else (t1, n1)

/-- Source `check_task_reminders`: the loop over all upcoming tasks. -/
def check_task_reminders (now : Instant) (chats : List ChatEnv) :
    List Task → List Task × List (Nat × String × List Int)
  | [] => ([], [])
  | t :: rest =>
    let r := scan_task now chats t
    let rs := check_task_reminders now chats rest
    (r.1 :: rs.1, r.2 ++ rs.2)

/-- A pending todo row as `check_todo_reminders` reads it: optional
    stored `scheduled_date`, optional stored `scheduled_time` (`none`
    for absent or falsy), and the single `reminded` flag. -/
structure Todo where
  id : Nat
  scheduled_date : DateField
  scheduled_time : Option TimeField
  reminded : Bool
deriving DecidableEq

/-- The tail of a `check_todo_reminders` iteration once the todo's date
    `d` is known (defaulted or parsed): require `d = today`, parse the
    time, and fire when `0 ≤ hours_left ≤ 1`. -/
def scan_todo_dated (now : Instant) (chats : List ChatEnv) (td : Todo)
    (tf : TimeField) (today d : Int) : Todo × List (Nat × List Int) :=
  if d ≠ today then (td, [])
  else
    match tf with
    | TimeField.malformed _ => (td, [])
    | TimeField.valid m =>
      let todo_datetime : Instant := ⟨d, m⟩
      let hours_left := hours_until todo_datetime now
      if 0 ≤ hours_left ∧ hours_left ≤ 1 then
        ({ td with reminded := true }, [(td.id, broadcast_delivered now chats)])
      else (td, [])

/-- One loop iteration of `check_todo_reminders` on one todo: skip when
    no stored time or already reminded; skip (exception caught) when the
    stored date is unparseable; default the date to today when absent;
    skip when the date is not today; skip (exception caught) when the
    stored time is unparseable; fire and set `reminded` when
    `0 ≤ hours_left ≤ 1`. -/
def scan_todo (now : Instant) (chats : List ChatEnv) (td : Todo) :
    Todo × List (Nat × List Int) :=
  let today := now.day
  match td.scheduled_time with
  | none => (td, [])
  | some tf =>
    if td.reminded then (td, [])
    else
      match td.scheduled_date with
      | DateField.malformed _ => (td, [])
      | DateField.absent =>
        scan_todo_dated now chats td tf today today
      | DateField.valid _ d =>
        scan_todo_dated now chats td tf today d

/-- Source `check_todo_reminders`: the loop over all pending todos. -/
def check_todo_reminders (now : Instant) (chats : List ChatEnv) :
    List Todo → List Todo × List (Nat × List Int)
  | [] => ([], [])
  | td :: rest =>
    let r := scan_todo now chats td
    let rs := check_todo_reminders now chats rest
    (r.1 :: rs.1, r.2 ++ rs.2)

/-! ## Concrete scenario data used by the theorems below -/

/-- The due instant 2025-10-25T17:00 of the spec's escalation scenario. -/
def oct25_due : Instant := ⟨days_from_civil 2025 10 25, 17 * 60⟩

/-- A scan instant 2025-10-24T09:00, 32 hours before `oct25_due`. -/
def oct24_scan : Instant := ⟨days_from_civil 2025 10 24, 9 * 60⟩

/-- A registered chat that is not muted and whose sends succeed. -/
def ok_chat : ChatEnv := ⟨111, none, false⟩

/-- A registered chat that is not muted but whose sends raise. -/
def failing_chat : ChatEnv := ⟨222, none, true⟩

/-- A registered chat muted until 2025-10-30T00:00. -/
def muted_chat : ChatEnv :=
  ⟨333, some ⟨DateTimeField.valid ⟨days_from_civil 2025 10 30, 0⟩⟩, false⟩

/-- The scenario assignment: due `oct25_due`, last fired level 1. -/
def scenario_assignment : Assignment := ⟨5, DateTimeField.valid oct25_due, 1⟩

/-- An assignment whose stored due-date string does not parse. -/
def bad_date_assignment : Assignment := ⟨6, DateTimeField.malformed "not-a-date", 0⟩

/-- A break event named "Mid Semester" in `name` and nothing in `name_en`. -/
def mid_named_event : AcademicEvent :=
  ⟨some "break", some "Mid Semester", none, DateField.absent, DateField.absent, none⟩

/-- A class-affecting holiday covering 2025-10-10 … 2025-10-12. -/
def sat_holiday : AcademicEvent :=
  ⟨some "holiday", some "Deepavali", none,
    DateField.valid "2025-10-10" (days_from_civil 2025 10 10),
    DateField.valid "2025-10-12" (days_from_civil 2025 10 12), some true⟩

/-- A one-day event on 2025-12-25 whose `affects_classes` field is absent. -/
def default_affects_event : AcademicEvent :=
  ⟨some "holiday", some "Christmas", none,
    DateField.valid "2025-12-25" (days_from_civil 2025 12 25),
    DateField.absent, none⟩

/-- A todo scheduled tomorrow (2025-10-21) at 00:30, not yet reminded. -/
def midnight_todo : Todo :=
  ⟨9, DateField.valid "2025-10-21" (days_from_civil 2025 10 21),
    some (TimeField.valid 30), false⟩

/-- A scan instant 2025-10-20T23:45, 45 minutes before `midnight_todo`. -/
def late_scan : Instant := ⟨days_from_civil 2025 10 20, 23 * 60 + 45⟩

/-- A todo scheduled today (2025-10-20) at 09:30, not yet reminded. -/
def morning_todo : Todo :=
  ⟨10, DateField.valid "2025-10-20" (days_from_civil 2025 10 20),
    some (TimeField.valid (9 * 60 + 30)), false⟩

/-- A scan instant 2025-10-20T09:00. -/
def morning_scan : Instant := ⟨days_from_civil 2025 10 20, 9 * 60⟩

/-- A task scheduled tomorrow (2025-10-21) whose stored time string is
    unparseable, with both reminder flags unset. -/
def bad_time_task : Task :=
  ⟨3, DateField.valid "2025-10-21" (days_from_civil 2025 10 21),
    some (TimeField.malformed "25:99"), false, false⟩

/-- A task whose stored date string is unparseable. -/
def bad_date_task : Task :=
  ⟨4, DateField.malformed "tomorrow", some (TimeField.valid 600), false, false⟩

/-- A todo whose stored date string is unparseable. -/
def bad_date_todo : Todo :=
  ⟨11, DateField.malformed "someday", some (TimeField.valid 600), false⟩

/-- A scan instant 2025-10-20T20:00 (8PM). -/
def evening_scan : Instant := ⟨days_from_civil 2025 10 20, 20 * 60⟩

/-! ## Theorems -/

/-- Whenever the tail of the week computation produces a week number, it
    is the clamp `max lecture_week 1` of a `lecture_week ≤ 14`. -/
lemma week_from_lecture_week_bounds {lw : Int} {ib : Option AcademicEvent} {n : Int}
    (h : week_from_lecture lw ib = WeekResult.week n) : 1 ≤ n ∧ n ≤ 14 := by
  unfold week_from_lecture at h
  split at h
  · split at h <;> simp_all
  · rename_i hle
    injection h with h'
    subst h'
    exact ⟨le_max_right _ _, max_le (by omega) (by norm_num)⟩

/-- C5: for every today, semester start and event list, whenever
    `get_current_week` returns a lecture-week integer rather than a
    descriptive string, that integer is between 1 and 14 inclusive; in
    particular it is never a lecture week greater than 14. -/
theorem current_week_int_bounds (today semester_start : Int)
    (events : List AcademicEvent) (n : Int)
    (h : get_current_week today semester_start events = WeekResult.week n) :
    1 ≤ n ∧ n ≤ 14 := by
  simp only [get_current_week] at h
  split at h
  · simp at h
  · split at h
    · simp at h
    · split at h
      · simp at h
      · exact week_from_lecture_week_bounds h

/-- Witness for C5: on the semester's first day with no events the week
    is 1, which the theorem bounds by 1 and 14. -/
theorem current_week_int_bounds_witness : (1 : Int) ≤ 1 ∧ (1 : Int) ≤ 14 :=
  current_week_int_bounds 0 0 [] 1 (by decide)

/-- C9: for every date whose weekday is Saturday or Sunday and every event
    list, `is_class_day` returns false. -/
theorem weekend_never_class_day (d : Int) (events : List AcademicEvent)
    (h : weekday d = 5 ∨ weekday d = 6) : is_class_day d events = false := by
  rcases h with h | h <;> simp [is_class_day, h]

/-- Witness for C9: Saturday 2025-10-11, with an event covering it. -/
theorem weekend_never_class_day_witness :
    is_class_day (days_from_civil 2025 10 11) [sat_holiday] = false :=
  weekend_never_class_day _ _ (by decide)

/-- C6 counterexample: an event whose `name` contains "mid" (and whose
    `name_en` is empty) is classified inter-semester, not mid-semester —
    the code checks "mid" only against `name_en`, not against either
    field. -/
theorem classify_mid_in_name_counterexample :
    strContains (lower_string (mid_named_event.name.getD "")) "mid" = true ∧
    classify_break_event mid_named_event = BREAK_INTER_SEMESTER ∧
    BREAK_INTER_SEMESTER ≠ BREAK_MID_SEMESTER :=
  ⟨by decide, by decide, by decide⟩

/-- C6 amended: `classify` is a pure case-insensitive substring match,
    field-specific: if `name` contains "pertengahan" or `nameEn` contains
    "mid" the result is MidSemester; otherwise — whether or not `name`
    contains "antara" or `nameEn` contains "inter" or "semester break" —
    the result is InterSemester. -/
theorem classify_fieldwise (e : AcademicEvent) :
    if (strContains (lower_string (e.name.getD "")) "pertengahan"
        || strContains (lower_string (e.name_en.getD "")) "mid") = true
    then classify_break_event e = BREAK_MID_SEMESTER
    else classify_break_event e = BREAK_INTER_SEMESTER := by
  by_cases h : (strContains (lower_string (e.name.getD "")) "pertengahan"
      || strContains (lower_string (e.name_en.getD "")) "mid") = true
  · simp only [h, if_true]
    simp [classify_break_event, h]
  · simp only [h, if_false]
    have h' : (strContains (lower_string (e.name.getD "")) "pertengahan"
        || strContains (lower_string (e.name_en.getD "")) "mid") = false := by
      simpa using h
    simp [classify_break_event, h']

/-- C10: an event whose `affects_classes` field is absent is treated as
    affecting classes: it makes every date it covers a non-class day, is
    returned by `get_event_on_date` on covered dates, and is eligible as
    the next off day. -/
theorem absent_affects_classes_defaults_true (e : AcademicEvent)
    (s d today days_ahead : Int) (events : List AcademicEvent)
    (hn : e.affects_classes = none)
    (hs : parse_date e.start_date = some s) :
    (e ∈ events → s ≤ d → d ≤ (parse_date e.end_date).getD s →
      is_class_day d events = false) ∧
    (s ≤ d → d ≤ (parse_date e.end_date).getD s →
      get_event_on_date d [e] = some e) ∧
    (today < s → s - today ≤ days_ahead →
      get_next_offday today [e] days_ahead = some (some s, e)) := by
  have hcov : ∀ x : Int, s ≤ x → x ≤ (parse_date e.end_date).getD s →
      event_covers x e = true := by
    intro x h1 h2
    unfold event_covers
    rw [hs]
    simp [hn, h1, h2]
  refine ⟨?_, ?_, ?_⟩
  · intro hm h1 h2
    unfold is_class_day
    split
    · rfl
    · simp [List.any_eq_true.mpr ⟨e, hm, hcov d h1 h2⟩]
  · intro h1 h2
    simp [get_event_on_date, List.find?, hcov d h1 h2]
  · intro h1 h2
    have hp : (match parse_date e.start_date with
        | none => false
        | some s' => e.affects_classes.getD true && decide (today < s')
            && decide (s' - today ≤ days_ahead)) = true := by
      rw [hs]
      simp [hn, h1, h2]
    simp only [get_next_offday, List.filter_cons, List.filter_nil]
    rw [hp]
    simp [sort_by_start, insert_event, List.foldl, hs]

/-- Witness for C10: the Christmas event with no `affects_classes` field
    blanks 2025-12-25, is found on it, and is the next off day from
    2025-12-01. -/
theorem absent_affects_classes_defaults_true_witness :
    is_class_day (days_from_civil 2025 12 25) [default_affects_event] = false ∧
    get_event_on_date (days_from_civil 2025 12 25) [default_affects_event]
      = some default_affects_event ∧
    get_next_offday (days_from_civil 2025 12 1) [default_affects_event] 90
      = some (some (days_from_civil 2025 12 25), default_affects_event) := by
  obtain ⟨h1, h2, h3⟩ := absent_affects_classes_defaults_true default_affects_event
    (days_from_civil 2025 12 25) (days_from_civil 2025 12 25)
    (days_from_civil 2025 12 1) 90 [default_affects_event] (by decide) (by decide)
  exact ⟨h1 (by decide) (by decide) (by decide),
    h2 (by decide) (by decide), h3 (by decide) (by decide)⟩

/-- C1 counterexample: for the assignment due 2025-10-25T17:00 with
    `lastReminderLevel = 1`, the scan at 2025-10-24T09:00 (32 hours left)
    sends one notification but persists `lastReminderLevel = 2`, not 3:
    level 2 is the first unfired level with `hours_left ≤ threshold`
    (32 ≤ 48), so the engine does not skip to level 3. -/
theorem scan_at_32h_persists_level_two_not_three :
    check_assignment_reminders oct24_scan [ok_chat] [scenario_assignment] =
      ([⟨5, DateTimeField.valid oct25_due, 2⟩], [(5, 2, [111])]) ∧ (2 : Nat) ≠ 3 := by
  constructor
  · norm_num [check_assignment_reminders, scan_assignment, scenario_assignment, ok_chat,
      oct25_due, oct24_scan, hours_until, instant_minutes, days_from_civil,
      get_next_reminder_level, reminder_level_loop, ASSIGNMENT_REMINDER_LEVELS,
      broadcast_delivered, send_notification, is_muted, List.filter]
  · decide

/-- C1 amended: for the assignment due 2025-10-25T17:00 with
    `lastReminderLevel = 1`, the scan at 2025-10-24T09:00 (32 hours left)
    sends exactly one notification and persists `lastReminderLevel = 2`,
    the smallest unfired level whose threshold (48h) has been crossed. -/
theorem scan_at_32h_fires_exactly_level_two :
    (check_assignment_reminders oct24_scan [ok_chat] [scenario_assignment]).2.length = 1 ∧
    (check_assignment_reminders oct24_scan [ok_chat] [scenario_assignment]).2 =
      [(5, 2, [111])] ∧
    (check_assignment_reminders oct24_scan [ok_chat] [scenario_assignment]).1 =
      [⟨5, DateTimeField.valid oct25_due, 2⟩] := by
  refine ⟨?_, ?_, ?_⟩ <;>
    norm_num [check_assignment_reminders, scan_assignment, scenario_assignment, ok_chat,
      oct25_due, oct24_scan, hours_until, instant_minutes, days_from_civil,
      get_next_reminder_level, reminder_level_loop, ASSIGNMENT_REMINDER_LEVELS,
      broadcast_delivered, send_notification, is_muted, List.filter]

/-- The reminder-level loop only returns levels at or above the level it
    starts from. -/
lemma reminder_level_loop_le {hours_left : Rat} {fuel level L : Nat}
    (h : reminder_level_loop hours_left fuel level = some L) : level ≤ L := by
  induction fuel generalizing level with
  | zero => simp [reminder_level_loop] at h
  | succ n ih =>
    simp only [reminder_level_loop] at h
    split at h
    · injection h with h'
      omega
    · have := ih h
      omega

/-- Source `_get_next_reminder_level` only returns levels strictly above the
    current one. -/
lemma get_next_reminder_level_gt {hours_left : Rat} {current L : Nat}
    (h : get_next_reminder_level hours_left current = some L) : current < L := by
  unfold get_next_reminder_level at h
  have := reminder_level_loop_le h
  omega

/-- Each assignment iteration either leaves the row unchanged and fires
    nothing, or fires exactly one strictly higher level and persists it. -/
lemma scan_assignment_shape (now : Instant) (chats : List ChatEnv) (a : Assignment) :
    scan_assignment now chats a = (a, []) ∨
    ∃ L, a.last_reminder_level < L ∧
      scan_assignment now chats a =
        ({ a with last_reminder_level := L },
          [(a.id, L, broadcast_delivered now chats)]) := by
  rcases hd : a.due_date with _ | s | due
  · left; simp [scan_assignment, hd]
  · left; simp [scan_assignment, hd]
  · rcases hg : get_next_reminder_level (hours_until due now) a.last_reminder_level
      with _ | L
    · left; simp [scan_assignment, hd, hg]
    · have hlt := get_next_reminder_level_gt hg
      right
      refine ⟨L, hlt, ?_⟩
      simp only [scan_assignment, hd, hg]
      rw [if_pos hlt]

/-- The row an assignment iteration leaves behind does not depend on the
    chats (and hence not on mutes or send failures). -/
lemma scan_assignment_fst_indep (now : Instant) (chats chats2 : List ChatEnv)
    (a : Assignment) :
    (scan_assignment now chats a).1 = (scan_assignment now chats2 a).1 := by
  rcases hd : a.due_date with _ | s | due <;> simp only [scan_assignment, hd]
  rcases hg : get_next_reminder_level (hours_until due now) a.last_reminder_level
    with _ | L <;> simp only [hg]
  split <;> rfl

/-- A reminder fired by an assignment iteration carries a level strictly
    above the old one, and that level is what gets persisted. -/
lemma scan_assignment_fired_level (now : Instant) (chats : List ChatEnv)
    (a : Assignment) {id L : Nat} {ds : List Int}
    (h : (id, L, ds) ∈ (scan_assignment now chats a).2) :
    a.last_reminder_level < L ∧
    (scan_assignment now chats a).1.last_reminder_level = L := by
  rcases scan_assignment_shape now chats a with hs | ⟨L2, hlt, hs⟩
  · rw [hs] at h
    simp at h
  · rw [hs] at h
    simp at h
    obtain ⟨-, hL, -⟩ := h
    subst hL
    exact ⟨hlt, by rw [hs]⟩

/-- C2: in every single assignment scan at most one escalation level fires
    per assignment, and across any sequence of scans the fired levels,
    prefixed by the starting `lastReminderLevel`, are strictly increasing
    — each fired level is strictly greater than the level persisted before
    it. -/
theorem escalation_fires_at_most_once_and_strictly_increases (now : Instant)
    (chats : List ChatEnv) (a : Assignment) (times : List Instant) :
    (scan_assignment now chats a).2.length ≤ 1 ∧
    List.Chain' (fun x y => x < y)
      (a.last_reminder_level :: (run_scans chats a times).2) := by
  constructor
  · rcases scan_assignment_shape now chats a with h | ⟨L, -, h⟩ <;> simp [h]
  · induction times generalizing a with
    | nil => simp [run_scans]
    | cons t ts ih =>
      rcases scan_assignment_shape t chats a with h | ⟨L, hlt, h⟩
      · simpa [run_scans, h] using ih a
      · have hrest := ih { a with last_reminder_level := L }
        simp only [run_scans, h, List.map_cons, List.map_nil, List.nil_append,
          List.cons_append] at hrest ⊢
        exact List.chain'_cons.mpr ⟨hlt, hrest⟩

/-- C3 counterexample: with a single registered chat whose send raises,
    the scan at 2025-10-24T09:00 delivers to nobody, yet the assignment's
    `lastReminderLevel` is still advanced from 1 to 2 — the failed
    reminder will not be retried, contrary to the claim that state is not
    advanced when sending fails. -/
theorem failed_send_still_advances_state :
    check_assignment_reminders oct24_scan [failing_chat] [scenario_assignment] =
      ([⟨5, DateTimeField.valid oct25_due, 2⟩], [(5, 2, [])]) ∧
    scenario_assignment.last_reminder_level = 1 ∧ (1 : Nat) ≠ 2 := by
  refine ⟨?_, by decide, by decide⟩
  norm_num [check_assignment_reminders, scan_assignment, scenario_assignment,
    failing_chat, oct25_due, oct24_scan, hours_until, instant_minutes, days_from_civil,
    get_next_reminder_level, reminder_level_loop, ASSIGNMENT_REMINDER_LEVELS,
    broadcast_delivered, send_notification, is_muted, List.filter]

/-- C3 amended: the reminder state persisted by an assignment scan is
    independent of the delivery outcome — the same row results whatever
    the chats' mute states and send failures are, and whenever a reminder
    fires its level is persisted even if no send succeeded. -/
theorem state_advance_independent_of_delivery (now : Instant)
    (chats chats2 : List ChatEnv) (a : Assignment) :
    (scan_assignment now chats a).1 = (scan_assignment now chats2 a).1 ∧
    ∀ id L ds, (id, L, ds) ∈ (scan_assignment now chats a).2 →
      (scan_assignment now chats a).1.last_reminder_level = L := by
  refine ⟨scan_assignment_fst_indep now chats chats2 a, ?_⟩
  intro id L ds h
  exact (scan_assignment_fired_level now chats a h).2

/-- Witness for C3 amended: the failing-chat scenario scan persists the
    same row as a scan with no recipients, and persists level 2. -/
theorem state_advance_independent_of_delivery_witness :
    (scan_assignment oct24_scan [failing_chat] scenario_assignment).1 =
      (scan_assignment oct24_scan [] scenario_assignment).1 ∧
    (scan_assignment oct24_scan [failing_chat] scenario_assignment).1.last_reminder_level
      = 2 :=
  ⟨(state_advance_independent_of_delivery oct24_scan [failing_chat] []
      scenario_assignment).1,
   (state_advance_independent_of_delivery oct24_scan [failing_chat] []
      scenario_assignment).2 5 2 [] (by
    norm_num [scan_assignment, scenario_assignment, failing_chat, oct25_due,
      oct24_scan, hours_until, instant_minutes, days_from_civil,
      get_next_reminder_level, reminder_level_loop, ASSIGNMENT_REMINDER_LEVELS,
      broadcast_delivered, send_notification, is_muted, List.filter])⟩

/-- C4: for a chat muted at scan time (`now < mutedUntil`), delivery is
    suppressed — `_send_notification` returns false without sending —
    while the assignment row still advances exactly as it would with no
    recipients; a fired level is persisted, and every reminder fired by a
    later scan of the updated row has a strictly higher level, so the
    suppressed reminder is never re-sent after the mute expires. -/
theorem muted_chat_suppressed_but_state_advances (now t : Instant)
    (chats : List ChatEnv) (a : Assignment) (c : ChatEnv)
    (_hc : c ∈ chats)
    (hcfg : c.user_config = some ⟨DateTimeField.valid t⟩)
    (hmute : instant_minutes now < instant_minutes t) :
    send_notification now c = false ∧
    (scan_assignment now chats a).1 = (scan_assignment now [] a).1 ∧
    ∀ id L ds, (id, L, ds) ∈ (scan_assignment now chats a).2 →
      (scan_assignment now chats a).1.last_reminder_level = L ∧
      ∀ now2 chats2 id2 L2 ds2,
        (id2, L2, ds2) ∈ (scan_assignment now2 chats2 (scan_assignment now chats a).1).2 →
        L < L2 := by
  refine ⟨?_, scan_assignment_fst_indep now chats [] a, ?_⟩
  · simp [send_notification, is_muted, hcfg, hmute]
  · intro id L ds h
    obtain ⟨hlt, hfst⟩ := scan_assignment_fired_level now chats a h
    refine ⟨hfst, ?_⟩
    intro now2 chats2 id2 L2 ds2 h2
    have hlt2 := (scan_assignment_fired_level now2 chats2 _ h2).1
    rw [hfst] at hlt2
    exact hlt2

/-- Witness for C4: the muted chat is suppressed at the scenario scan,
    which still persists level 2. -/
theorem muted_chat_suppressed_but_state_advances_witness :
    send_notification oct24_scan muted_chat = false ∧
    (scan_assignment oct24_scan [muted_chat] scenario_assignment).1.last_reminder_level
      = 2 := by
  obtain ⟨h1, -, h3⟩ := muted_chat_suppressed_but_state_advances oct24_scan
    ⟨days_from_civil 2025 10 30, 0⟩ [muted_chat] scenario_assignment muted_chat
    (by decide) (by decide) (by decide)
  refine ⟨h1, ?_⟩
  refine (h3 5 2 [] ?_).1
  norm_num [scan_assignment, scenario_assignment, muted_chat, oct25_due,
    oct24_scan, hours_until, instant_minutes, days_from_civil,
    get_next_reminder_level, reminder_level_loop, ASSIGNMENT_REMINDER_LEVELS,
    broadcast_delivered, send_notification, is_muted, List.filter]

/-- C7 counterexample: `midnight_todo` is pending and un-reminded, has a
    scheduled time, and the scan at 2025-10-20T23:45 lies 0.75 hours
    before its scheduled instant — inside the claim's window — yet the
    scan fires nothing and leaves the todo unchanged, because the code
    additionally requires the scheduled date to equal today. -/
theorem todo_in_window_tomorrow_not_fired :
    midnight_todo.reminded = false ∧
    midnight_todo.scheduled_time = some (TimeField.valid 30) ∧
    0 ≤ hours_until ⟨days_from_civil 2025 10 21, 30⟩ late_scan ∧
    hours_until ⟨days_from_civil 2025 10 21, 30⟩ late_scan ≤ 1 ∧
    scan_todo late_scan [ok_chat] midnight_todo = (midnight_todo, []) := by
  refine ⟨by decide, by decide, ?_, ?_, ?_⟩
  · norm_num [hours_until, instant_minutes, late_scan, days_from_civil]
  · norm_num [hours_until, instant_minutes, late_scan, days_from_civil]
  · norm_num [scan_todo, scan_todo_dated, midnight_todo, late_scan, days_from_civil]

/-- C7 amended: a pending, un-reminded todo with a scheduled time — its
    scheduled date defaulting to today when absent — fires its single
    reminder and gets its `reminded` flag set by a scan at a time with
    `0 ≤ hoursUntil ≤ 1`, provided additionally that the (defaulted)
    scheduled date equals today. -/
theorem todo_reminder_fires_in_today_window (now : Instant) (chats : List ChatEnv)
    (td : Todo) (m : Int)
    (hrem : td.reminded = false)
    (htime : td.scheduled_time = some (TimeField.valid m))
    (hdate : td.scheduled_date = DateField.absent ∨
      ∃ raw, td.scheduled_date = DateField.valid raw now.day)
    (h0 : 0 ≤ hours_until ⟨now.day, m⟩ now)
    (h1 : hours_until ⟨now.day, m⟩ now ≤ 1) :
    scan_todo now chats td =
      ({ td with reminded := true }, [(td.id, broadcast_delivered now chats)]) := by
  have hdated : scan_todo_dated now chats td (TimeField.valid m) now.day now.day =
      ({ td with reminded := true }, [(td.id, broadcast_delivered now chats)]) := by
    simp only [scan_todo_dated]
    rw [if_neg (by simp), if_pos ⟨h0, h1⟩]
  rcases hdate with hd | ⟨raw, hd⟩ <;>
    simpa [scan_todo, htime, hrem, hd] using hdated

/-- Witness for C7 amended: the todo scheduled today at 09:30 fires at the
    09:00 scan. -/
theorem todo_reminder_fires_in_today_window_witness :
    scan_todo morning_scan [ok_chat] morning_todo =
      ({ morning_todo with reminded := true },
        [(morning_todo.id, broadcast_delivered morning_scan [ok_chat])]) :=
  todo_reminder_fires_in_today_window morning_scan [ok_chat] morning_todo (9 * 60 + 30)
    (by decide) (by decide) (Or.inr ⟨"2025-10-20", by decide⟩)
    (by norm_num [hours_until, instant_minutes, morning_scan, days_from_civil])
    (by norm_num [hours_until, instant_minutes, morning_scan, days_from_civil])

/-- An assignment whose stored due-date string does not parse is left
    unchanged and fires nothing. -/
lemma scan_assignment_malformed (now : Instant) (chats : List ChatEnv)
    (a : Assignment) (s : String) (h : a.due_date = DateTimeField.malformed s) :
    scan_assignment now chats a = (a, []) := by
  simp [scan_assignment, h]

/-- A task whose stored date string does not parse is left unchanged and
    fires nothing. -/
lemma scan_task_malformed_date (now : Instant) (chats : List ChatEnv)
    (t : Task) (s : String) (h : t.scheduled_date = DateField.malformed s) :
    scan_task now chats t = (t, []) := by
  simp [scan_task, h]

/-- A todo whose stored date string does not parse is left unchanged and
    fires nothing. -/
lemma scan_todo_malformed_date (now : Instant) (chats : List ChatEnv)
    (td : Todo) (s : String) (h : td.scheduled_date = DateField.malformed s) :
    scan_todo now chats td = (td, []) := by
  cases htf : td.scheduled_time <;> simp [scan_todo, h, htf]

/-- The assignment scan processes its list item by item: it distributes
    over append. -/
lemma check_assignment_reminders_append (now : Instant) (chats : List ChatEnv)
    (l1 l2 : List Assignment) :
    check_assignment_reminders now chats (l1 ++ l2) =
      ((check_assignment_reminders now chats l1).1
          ++ (check_assignment_reminders now chats l2).1,
        (check_assignment_reminders now chats l1).2
          ++ (check_assignment_reminders now chats l2).2) := by
  induction l1 with
  | nil => simp [check_assignment_reminders]
  | cons a rest ih => simp [check_assignment_reminders, ih]

/-- The task scan processes its list item by item: it distributes over
    append. -/
lemma check_task_reminders_append (now : Instant) (chats : List ChatEnv)
    (l1 l2 : List Task) :
    check_task_reminders now chats (l1 ++ l2) =
      ((check_task_reminders now chats l1).1 ++ (check_task_reminders now chats l2).1,
        (check_task_reminders now chats l1).2 ++ (check_task_reminders now chats l2).2) := by
  induction l1 with
  | nil => simp [check_task_reminders]
  | cons t rest ih => simp [check_task_reminders, ih]

/-- The todo scan processes its list item by item: it distributes over
    append. -/
lemma check_todo_reminders_append (now : Instant) (chats : List ChatEnv)
    (l1 l2 : List Todo) :
    check_todo_reminders now chats (l1 ++ l2) =
      ((check_todo_reminders now chats l1).1 ++ (check_todo_reminders now chats l2).1,
        (check_todo_reminders now chats l1).2 ++ (check_todo_reminders now chats l2).2) := by
  induction l1 with
  | nil => simp [check_todo_reminders]
  | cons td rest ih => simp [check_todo_reminders, ih]

/-- C8 counterexample: `bad_time_task` has a malformed stored time string,
    yet the 8PM scan the day before advances its `reminded_1day` flag —
    the offending item is processed up to the parse failure, not skipped
    without advancing its state. -/
theorem malformed_time_task_still_advances :
    bad_time_task.scheduled_time = some (TimeField.malformed "25:99") ∧
    bad_time_task.reminded_1day = false ∧
    (scan_task evening_scan [ok_chat] bad_time_task).1.reminded_1day = true := by
  refine ⟨by decide, by decide, ?_⟩
  norm_num [scan_task, scan_task_1day, bad_time_task, evening_scan, hour_of,
    broadcast_delivered, send_notification, is_muted, List.filter, days_from_civil]

/-- C8 amended: an item whose stored DATE string is malformed is skipped
    without advancing its state and the scan continues with the remaining
    items — for the assignment, task and todo scans alike.  For a task
    with a parseable date but a malformed stored TIME string (and the
    two-hour flag unset), the parse failure aborts only the rest of that
    item's iteration: the two-hour flag is not advanced, but the one-day
    checkpoint already executed in the same iteration keeps its effects;
    the scan still continues with the remaining items. -/
theorem malformed_item_skipped_scan_continues :
    (∀ (now : Instant) (chats : List ChatEnv) (pre post : List Assignment)
        (a : Assignment) (s : String), a.due_date = DateTimeField.malformed s →
      check_assignment_reminders now chats (pre ++ a :: post) =
        ((check_assignment_reminders now chats pre).1
            ++ a :: (check_assignment_reminders now chats post).1,
          (check_assignment_reminders now chats pre).2
            ++ (check_assignment_reminders now chats post).2)) ∧
    (∀ (now : Instant) (chats : List ChatEnv) (pre post : List Task)
        (t : Task) (s : String), t.scheduled_date = DateField.malformed s →
      check_task_reminders now chats (pre ++ t :: post) =
        ((check_task_reminders now chats pre).1
            ++ t :: (check_task_reminders now chats post).1,
          (check_task_reminders now chats pre).2
            ++ (check_task_reminders now chats post).2)) ∧
    (∀ (now : Instant) (chats : List ChatEnv) (pre post : List Todo)
        (td : Todo) (s : String), td.scheduled_date = DateField.malformed s →
      check_todo_reminders now chats (pre ++ td :: post) =
        ((check_todo_reminders now chats pre).1
            ++ td :: (check_todo_reminders now chats post).1,
          (check_todo_reminders now chats pre).2
            ++ (check_todo_reminders now chats post).2)) ∧
    (∀ (now : Instant) (chats : List ChatEnv) (pre post : List Task)
        (t : Task) (raw : String) (d : Int) (s : String),
      t.scheduled_date = DateField.valid raw d →
      t.scheduled_time = some (TimeField.malformed s) →
      t.reminded_2hours = false →
      scan_task now chats t = scan_task_1day now chats t d ∧
      (scan_task now chats t).1.reminded_2hours = false ∧
      check_task_reminders now chats (pre ++ t :: post) =
        ((check_task_reminders now chats pre).1
            ++ (scan_task now chats t).1 :: (check_task_reminders now chats post).1,
          (check_task_reminders now chats pre).2
            ++ ((scan_task now chats t).2 ++ (check_task_reminders now chats post).2))) := by
  refine ⟨?_, ?_, ?_, ?_⟩
  · intro now chats pre post a s h
    rw [check_assignment_reminders_append]
    simp [check_assignment_reminders, scan_assignment_malformed now chats a s h]
  · intro now chats pre post t s h
    rw [check_task_reminders_append]
    simp [check_task_reminders, scan_task_malformed_date now chats t s h]
  · intro now chats pre post td s h
    rw [check_todo_reminders_append]
    simp [check_todo_reminders, scan_todo_malformed_date now chats td s h]
  · intro now chats pre post t raw d s hd htime h2h
    have heq : scan_task now chats t = scan_task_1day now chats t d := by
      simp [scan_task, hd, htime, h2h]
    refine ⟨heq, ?_, ?_⟩
    · rw [heq]
      simp only [scan_task_1day]
      split <;> simp [h2h]
    · rw [check_task_reminders_append]
      simp [check_task_reminders]

/-- Witness for C8 amended: concrete malformed-date items pass through the
    three scans unchanged firing nothing, and the malformed-time task's
    iteration reduces to its one-day block. -/
theorem malformed_item_skipped_scan_continues_witness :
    check_assignment_reminders evening_scan [ok_chat] [bad_date_assignment] =
      ([bad_date_assignment], []) ∧
    check_task_reminders evening_scan [ok_chat] [bad_date_task] =
      ([bad_date_task], []) ∧
    check_todo_reminders evening_scan [ok_chat] [bad_date_todo] =
      ([bad_date_todo], []) ∧
    scan_task evening_scan [ok_chat] bad_time_task =
      scan_task_1day evening_scan [ok_chat] bad_time_task (days_from_civil 2025 10 21) := by
  obtain ⟨h1, h2, h3, h4⟩ := malformed_item_skipped_scan_continues
  refine ⟨?_, ?_, ?_, ?_⟩
  · have := h1 evening_scan [ok_chat] [] [] bad_date_assignment "not-a-date" (by decide)
    simpa [check_assignment_reminders] using this
  · have := h2 evening_scan [ok_chat] [] [] bad_date_task "tomorrow" (by decide)
    simpa [check_task_reminders] using this
  · have := h3 evening_scan [ok_chat] [] [] bad_date_todo "someday" (by decide)
    simpa [check_todo_reminders] using this
  · exact (h4 evening_scan [ok_chat] [] [] bad_time_task "2025-10-21"
      (days_from_civil 2025 10 21) "25:99" (by decide) (by decide) (by decide)).1

end Productivity
